import Mathlib

/-!
# Attendify — verification of the attendance-protocol client logic

Shallow embedding of the status derivation, QR-issuance gating, scan
submission and duplicate-suppression logic of the Attendify JavaScript
front ends (`lecturer_ma.js`, `lecturer_dashboard.js`, `student.js`, and
the second student portal), together with a spec-modelled server-side
scan validator for the parts of the protocol that have no source under
`src/`.

Date-times are modelled as integers (milliseconds since the epoch, as a
JavaScript `Date` compares); ordering of parsed `Date` values agrees
with the ordering of these integers. A missing end time (`endTime`
falsy in JS) is `Option.none`.
-/

namespace LecturerMA

/-- `getClassStatus` from `lecturer_ma.js`: `now < classStart` gives
`UPCOMING`; otherwise, when an end is present and `now > classEnd`,
`ENDED`; otherwise `ONGOING`. A falsy `endTime` makes `classEnd` null,
so the `ENDED` branch is unreachable. -/
def getClassStatus (now classStart : Int) (classEnd : Option Int) : String :=
  if now < classStart then
    "UPCOMING"
  else
    match classEnd with
    | some e => if now > e then "ENDED" else "ONGOING"
    | none => "ONGOING"

/-- `canGenerateQR` from `lecturer_ma.js`: the status string must be
exactly `ONGOING`. -/
def canGenerateQR (classStatus : String) : Bool :=
  classStatus == "ONGOING"

/-- Outcome of the lecturer portal's `generateQRCode`: either a warning
notification with no network request, or the `POST /lecturer/generate-qr`
request being sent. -/
inductive GenQRAction where
  | warnNotOngoing (status : String)
  | sendRequest
deriving DecidableEq, Repr

/-- `generateQRCode` from `lecturer_ma.js`, restricted to its gating
logic: it re-derives the class status via `getClassStatus` from the
card's schedule data at the moment of the request, and only when
`canGenerateQR` holds does it send the issuance request; otherwise it
shows a warning and returns without any request. -/
def generateQRCode (now classStart : Int) (classEnd : Option Int) : GenQRAction :=
  let classStatus := getClassStatus now classStart classEnd
  if canGenerateQR classStatus then
    .sendRequest
  else
    .warnNotOngoing classStatus

end LecturerMA

namespace LecturerDashboard

/-- `initQRCodeHandlers` from `lecturer_dashboard.js`: the delegated
click handler fires its `generateQRCode` exactly when the clicked
button matches `.generate-qr-btn[data-status="ONGOING"]`, i.e. when the
button's stored `data-status` attribute equals `"ONGOING"`; the
dashboard's `generateQRCode` then sends the issuance request
unconditionally, with no time-derived status check of its own. -/
def qrClickSendsRequest (buttonDataStatus : String) : Bool :=
  buttonDataStatus == "ONGOING"

end LecturerDashboard

/-- Rank of a status string in the order UPCOMING < ONGOING < ENDED,
accepting both the lecturer portal's uppercase and the student portal's
lowercase renderings. -/
def statusRank (s : String) : Nat :=
  if s = "UPCOMING" ∨ s = "upcoming" then 0
  else if s = "ONGOING" ∨ s = "ongoing" then 1
  else 2

/-- Character-wise uppercasing, the analogue of JavaScript
`.toUpperCase()` on the ASCII status strings compared here. -/
def toUpperStr (s : String) : String :=
  ⟨s.data.map Char.toUpper⟩

/-- Device location as attached to a scan request: the decimal
renderings of `coords.latitude`, `coords.longitude`, `coords.accuracy`. -/
structure LocationData where
  latitude : String
  longitude : String
  accuracy : String
deriving DecidableEq, Repr

namespace Student

/-- The status computation inside `updateClassCardStatus` from
`student.js` (the function returns early when any of classId /
startTime / endTime / scheduleDate is missing, so both bounds are
present here): `now < start` gives `upcoming`; `start ≤ now ≤ end`
gives `ongoing`; otherwise `ended`. -/
def updateClassCardStatus (now startDateTime endDateTime : Int) : String :=
  if now < startDateTime then
    "upcoming"
  else if now ≥ startDateTime ∧ now ≤ endDateTime then
    "ongoing"
  else
    "ended"

/-- `isValidQRData` from `student.js`: `qrData && qrData.length >= 10`;
for a string argument, truthiness is non-emptiness. -/
def isValidQRData (qrData : String) : Bool :=
  !qrData.isEmpty && decide (qrData.length ≥ 10)

/-- The `FormData` body built by `submitAttendance` in `student.js`:
always `class_id` and `token`, the CSRF token when available, and the
three location fields only when `locationData` is non-null. -/
def buildAttendanceForm (classId token : String) (csrf : Option String)
    (locationData : Option LocationData) : List (String × String) :=
  [("class_id", classId), ("token", token)]
  ++ (match csrf with
      | some c => [("csrfmiddlewaretoken", c)]
      | none => [])
  ++ (match locationData with
      | some l => [("latitude", l.latitude), ("longitude", l.longitude),
                   ("accuracy", l.accuracy)]
      | none => [])

/-- Outcome of `processQRCodeData` from `student.js`: either the token
fails the format check (error, nothing sent), or `submitAttendance`
sends the given form to `/scan-qr-code/`. -/
inductive QRProcessOutcome where
  | invalidFormat
  | submitted (form : List (String × String))
deriving DecidableEq, Repr

/-- `processQRCodeData` from `student.js`, with the location step
resolved: `locResult` is the device location when available, and `none`
when there is no permission, no fix, or the lookup failed — the code
then only logs a warning and continues to `submitAttendance`. -/
def processQRCodeData (token classId : String) (locResult : Option LocationData)
    (csrf : Option String) : QRProcessOutcome :=
  if isValidQRData token then
    .submitted (buildAttendanceForm classId token csrf locResult)
  else
    .invalidFormat

/-- Pre-submission outcome of `handleManualTokenSubmit` from
`student.js` (its `token` argument is the input field's trimmed text). -/
inductive ManualSubmitAction where
  | warnSelectClass
  | warnEnterToken
  | errInvalidFormat
  | proceed
deriving DecidableEq, Repr

/-- `handleManualTokenSubmit` from `student.js`: needs a selected
class and a non-empty token, then only `isValidQRData` gates the
submission. -/
def handleManualTokenSubmit (selectedClassId : Option String) (token : String) :
    ManualSubmitAction :=
  match selectedClassId with
  | none => .warnSelectClass
  | some _ =>
      if token = "" then .warnEnterToken
      else if !(isValidQRData token) then .errInvalidFormat
      else .proceed

/-- Epoch milliseconds of `2000-01-01T00:00:00`. -/
def epochMs20000101 : Int := 946684800000

/-- Milliseconds in one day. -/
def msPerDay : Int := 86400000

/-- `updateSelectedClassTimeRemaining` from `student.js`: the end
instant is `new Date("2000-01-01T" + endTime)` — the class end time of
day (`endTimeMs` milliseconds past midnight) anchored to the fixed date
2000-01-01 — while `now` is the current real time. -/
def updateSelectedClassTimeRemaining (endTimeMs nowMs : Int) : String :=
  let diff := (epochMs20000101 + endTimeMs) - nowMs
  if diff ≤ 0 then "Class ended"
  else toString (diff / 60000) ++ " minutes remaining"

end Student

namespace StudentPortal

/-- Client state of the second student portal (`src/unnamed/part_000`):
the set of classes already attended (a JS `Set`, modelled by a list up
to membership) and the currently selected class. -/
structure PortalState where
  attendedClasses : List String
  selectedClassId : Option String
deriving DecidableEq, Repr

/-- Outcome of one scan / manual-token interaction: the three
no-request rejections (empty token, no class selected, already
attended) and the two cases in which the `/api/scan-qr/` request was
actually sent. -/
inductive ScanOutcome where
  | errEmptyToken
  | errNoClassSelected
  | warnAlreadyAttended
  | requestFailed
  | requestSucceeded
deriving DecidableEq, Repr

/-- Whether the outcome involved sending a scan request to the server. -/
def ScanOutcome.requestSent : ScanOutcome → Bool
  | .requestFailed => true
  | .requestSucceeded => true
  | _ => false

/-- `isClassAlreadyAttended` from `part_000`: membership in the
`attendedClasses` set. -/
def isClassAlreadyAttended (st : PortalState) (classId : String) : Bool :=
  st.attendedClasses.contains classId

/-- `disableAttendedClasses` from `part_000`, restricted to its state
effect: when the selected class is already attended, the selection is
cleared. -/
def disableAttendedClasses (st : PortalState) : PortalState :=
  match st.selectedClassId with
  | some cid =>
      if isClassAlreadyAttended st cid then { st with selectedClassId := none } else st
  | none => st

/-- `handleSuccessfulAttendance` from `part_000`: on a successful
server response the class is added to `attendedClasses`, and
`stopAllScanners` runs `disableAttendedClasses`. -/
def handleSuccessfulAttendance (st : PortalState) (classId : String) : PortalState :=
  disableAttendedClasses { st with attendedClasses := classId :: st.attendedClasses }

/-- `processQRScan` from `part_000`: a missing/empty token is rejected
as invalid format with no request; otherwise the scan request is sent
and, on a successful server response, `handleSuccessfulAttendance`
records the class. `serverSuccess` is the `result.success` field of the
server's reply. -/
def processQRScan (st : PortalState) (token classId : String) (serverSuccess : Bool) :
    PortalState × ScanOutcome :=
  if token = "" then (st, .errEmptyToken)
  else if serverSuccess then (handleSuccessfulAttendance st classId, .requestSucceeded)
  else (st, .requestFailed)

/-- `handleScannedQRCode` from `part_000`: requires a selected class,
rejects the scan with a warning when that class is already attended,
and otherwise forwards the decoded token (the parsed `token` field, or
the raw decoded text) to `processQRScan` with the selected class id. -/
def handleScannedQRCode (st : PortalState) (decodedToken : String) (serverSuccess : Bool) :
    PortalState × ScanOutcome :=
  match st.selectedClassId with
  | none => (st, .errNoClassSelected)
  | some cid =>
      if isClassAlreadyAttended st cid then (st, .warnAlreadyAttended)
      else processQRScan st decodedToken cid serverSuccess

/-- `submitManualToken` from `part_000`: an empty token and a missing
selection are rejected, an already-attended selected class is rejected
with the warning, and otherwise the token goes to `processQRScan`. -/
def submitManualToken (st : PortalState) (token : String) (serverSuccess : Bool) :
    PortalState × ScanOutcome :=
  if token = "" then (st, .errEmptyToken)
  else
    match st.selectedClassId with
    | none => (st, .errNoClassSelected)
    | some cid =>
        if isClassAlreadyAttended st cid then (st, .warnAlreadyAttended)
        else processQRScan st token cid serverSuccess

/-- `initializeClassRestrictions` from `part_000`: every schedule item
whose displayed attendance status text (trimmed, uppercased) is
`PRESENT` or `ATTENDED` is pre-added to `attendedClasses`, then
`disableAttendedClasses` runs. `items` carries each card's class id and
its trimmed status text. -/
def initializeClassRestrictions (st : PortalState) (items : List (String × String)) :
    PortalState :=
  disableAttendedClasses
    { st with attendedClasses :=
        (items.filter fun p =>
          toUpperStr p.2 == "PRESENT" || toUpperStr p.2 == "ATTENDED").map Prod.fst
        ++ st.attendedClasses }

/-- The JSON body built by `processQRScan` in `part_000`:
`{ token, class_id, ...(this.currentLocation || {}) }` — the three
location fields are spread in only when `currentLocation` is non-null. -/
def buildScanRequestBody (token classId : String)
    (currentLocation : Option LocationData) : List (String × String) :=
  [("token", token), ("class_id", classId)]
  ++ (match currentLocation with
      | some l => [("latitude", l.latitude), ("longitude", l.longitude),
                   ("accuracy", l.accuracy)]
      | none => [])

end StudentPortal

namespace ScanServer

/-- A scheduled class session's time bounds (spec §3 `ClassSession`). -/
structure ClassSession where
  classStart : Int
  classEnd : Int
deriving DecidableEq, Repr

/-- The session's active attendance token (spec §3 `AttendanceToken`). -/
structure AttendanceToken where
  secret : String
  expiresAt : Int
deriving DecidableEq, Repr

/-- Decision of the server-side Scan Validator (spec §4.4 taxonomy). -/
inductive ScanDecision where
  | sessionNotFound
  | sessionNotActive (currentStatus : String)
  | invalidToken
  | tokenExpired
  | alreadyRecorded
  | accepted (recordStatus : String)
deriving DecidableEq, Repr

/-- Modelled from the spec: the server-side Scan Validator `submitScan`
(spec §4.4), whose implementation is not under `src/` (only the
JavaScript clients are present). The steps follow the spec's order:
resolve the session, re-derive its status and fail `SessionNotActive`
unless it is ONGOING, match the active token's secret (`InvalidToken`),
check expiry (`TokenExpired`), the duplicate check (`AlreadyRecorded`),
then record PRESENT within the grace window after start, else LATE.
The status re-derivation is the shared status function of §4.1, which
`getClassStatus` implements for sessions with a defined end. -/
def submitScan (now : Int) (session : Option ClassSession)
    (activeToken : Option AttendanceToken) (alreadyRecorded : Bool)
    (secret : String) (graceWindow : Int) : ScanDecision :=
  match session with
  | none => .sessionNotFound
  | some sess =>
      let s := LecturerMA.getClassStatus now sess.classStart (some sess.classEnd)
      if s ≠ "ONGOING" then .sessionNotActive s
      else
        match activeToken with
        | none => .invalidToken
        | some tok =>
            if tok.secret ≠ secret then .invalidToken
            else if now > tok.expiresAt then .tokenExpired
            else if alreadyRecorded then .alreadyRecorded
            else .accepted (if now ≤ sess.classStart + graceWindow then "PRESENT" else "LATE")

end ScanServer

namespace StudentPortal

/-- Clearing the selection never changes the attended set. -/
lemma disableAttendedClasses_attended (st : PortalState) :
    (disableAttendedClasses st).attendedClasses = st.attendedClasses := by
  unfold disableAttendedClasses
  cases hst : st.selectedClassId <;> simp only [hst]
  split_ifs <;> rfl

/-- `processQRScan` never removes a class from the attended set. -/
lemma mem_processQRScan_attended (st : PortalState) (tok cid : String) (succ : Bool)
    (c : String) (hc : c ∈ st.attendedClasses) :
    c ∈ (processQRScan st tok cid succ).1.attendedClasses := by
  unfold processQRScan handleSuccessfulAttendance
  split_ifs <;> simp [disableAttendedClasses_attended, hc]

end StudentPortal

/-- C1: For every time `now` and every session with a defined start and
end (satisfying the data-model invariant `start ≤ end`), the derived
status is UPCOMING exactly when `now < start`, ONGOING exactly when
`start ≤ now ≤ end` (inclusive at both endpoints), and ENDED exactly
when `now > end`, in both the lecturer portal's `getClassStatus` and
the student portal's `updateClassCardStatus`. -/
theorem c1_status_boundaries (now start e : Int) (hse : start ≤ e) :
    (LecturerMA.getClassStatus now start (some e) = "UPCOMING" ↔ now < start) ∧
    (LecturerMA.getClassStatus now start (some e) = "ONGOING" ↔ start ≤ now ∧ now ≤ e) ∧
    (LecturerMA.getClassStatus now start (some e) = "ENDED" ↔ now > e) ∧
    (Student.updateClassCardStatus now start e = "upcoming" ↔ now < start) ∧
    (Student.updateClassCardStatus now start e = "ongoing" ↔ start ≤ now ∧ now ≤ e) ∧
    (Student.updateClassCardStatus now start e = "ended" ↔ now > e) := by
  simp only [LecturerMA.getClassStatus, Student.updateClassCardStatus]
  split_ifs <;>
    refine ⟨?_, ?_, ?_, ?_, ?_, ?_⟩ <;>
    constructor <;>
    intro h <;>
    first
      | rfl
      | exact absurd h (by decide)
      | omega

/-- Witness for C1 at `now = 5`, `start = 0`, `end = 10`: the session
is ONGOING in both portals. -/
theorem c1_status_boundaries_witness :
    LecturerMA.getClassStatus 5 0 (some 10) = "ONGOING" ∧
    Student.updateClassCardStatus 5 0 10 = "ongoing" :=
  ⟨((c1_status_boundaries 5 0 10 (by decide)).2.1).mpr (by decide),
   ((c1_status_boundaries 5 0 10 (by decide)).2.2.2.2.1).mpr (by decide)⟩

/-- C5: For every fixed `start ≤ end`, the derived status is a total
function of `now` — it always yields exactly one of the three status
values — and it is monotone as `now` increases under the order
UPCOMING < ONGOING < ENDED, in both status derivations; in particular
it never regresses from ONGOING back to UPCOMING. -/
theorem c5_status_total_monotone (start e : Int) (hse : start ≤ e) :
    (∀ now, LecturerMA.getClassStatus now start (some e) = "UPCOMING" ∨
      LecturerMA.getClassStatus now start (some e) = "ONGOING" ∨
      LecturerMA.getClassStatus now start (some e) = "ENDED") ∧
    (∀ now, Student.updateClassCardStatus now start e = "upcoming" ∨
      Student.updateClassCardStatus now start e = "ongoing" ∨
      Student.updateClassCardStatus now start e = "ended") ∧
    (∀ n1 n2, n1 ≤ n2 →
      statusRank (LecturerMA.getClassStatus n1 start (some e)) ≤
        statusRank (LecturerMA.getClassStatus n2 start (some e))) ∧
    (∀ n1 n2, n1 ≤ n2 →
      statusRank (Student.updateClassCardStatus n1 start e) ≤
        statusRank (Student.updateClassCardStatus n2 start e)) := by
  refine ⟨fun now => ?_, fun now => ?_, fun n1 n2 h12 => ?_, fun n1 n2 h12 => ?_⟩ <;>
    simp only [LecturerMA.getClassStatus, Student.updateClassCardStatus, statusRank] <;>
    split_ifs <;>
    simp_all <;>
    omega

/-- Witness for C5 at `start = 0`, `end = 10`: instantiating the
monotonicity part at `now` moving from `5` to `20`. -/
theorem c5_status_total_monotone_witness :
    statusRank (LecturerMA.getClassStatus 5 0 (some 10)) ≤
      statusRank (LecturerMA.getClassStatus 20 0 (some 10)) :=
  (c5_status_total_monotone 0 10 (by decide)).2.2.1 5 20 (by decide)

/-- C6: With an end time present, the lecturer portal's
`getClassStatus` (used to gate QR issuance) and the student portal's
`updateClassCardStatus` (used for display) compute the same status up
to letter case: the lecturer status is exactly the uppercasing of the
student status, for every `now`, `start` and `end`. -/
theorem c6_display_enforcement_agree (now start e : Int) :
    LecturerMA.getClassStatus now start (some e) =
      toUpperStr (Student.updateClassCardStatus now start e) := by
  simp only [LecturerMA.getClassStatus, Student.updateClassCardStatus, toUpperStr]
  split_ifs <;> first | decide | omega

/-- C8: When a class has no end time, `getClassStatus` returns ONGOING
for every `now ≥ start` and never returns ENDED, so `canGenerateQR`
permits QR issuance at every time at or after the start. -/
theorem c8_no_end_time_ongoing_forever (now start : Int) (h : start ≤ now) :
    LecturerMA.getClassStatus now start none = "ONGOING" ∧
    LecturerMA.canGenerateQR (LecturerMA.getClassStatus now start none) = true ∧
    ∀ t : Int, LecturerMA.getClassStatus t start none ≠ "ENDED" := by
  refine ⟨?_, ?_, fun t => ?_⟩ <;>
    simp only [LecturerMA.getClassStatus, LecturerMA.canGenerateQR] <;>
    split_ifs <;>
    first | rfl | omega | decide

/-- Witness for C8 at `now = 100`, `start = 0`: a class with no end
time is still ONGOING and QR issuance is permitted. -/
theorem c8_no_end_time_ongoing_forever_witness :
    LecturerMA.getClassStatus 100 0 none = "ONGOING" ∧
    LecturerMA.canGenerateQR (LecturerMA.getClassStatus 100 0 none) = true :=
  ⟨(c8_no_end_time_ongoing_forever 100 0 (by decide)).1,
   (c8_no_end_time_ongoing_forever 100 0 (by decide)).2.1⟩

/-- C2 counterexample: the claim "a QR/token issuance request is sent
only when the status re-derived at the moment of the request is
ONGOING" fails on the `lecturer_dashboard.js` path. That portal's click
handler fires whenever the button's stored `data-status` attribute is
`"ONGOING"`, and its `generateQRCode` then sends the request without
re-deriving the status — and nothing in the dashboard ever downgrades
a stored `ONGOING` attribute (`handleClassStatusUpdates` only upgrades
to ONGOING). Concretely: with the attribute still `"ONGOING"` and
`now = 20`, `start = 0`, `end = 10`, the request is sent while the
re-derived status is ENDED. -/
theorem c2_counterexample :
    LecturerDashboard.qrClickSendsRequest "ONGOING" = true ∧
    LecturerMA.getClassStatus 20 0 (some 10) = "ENDED" := by
  constructor <;> rfl

/-- C2 amended: in the `lecturer_ma.js` portal, `generateQRCode` sends
the issuance request exactly when the status re-derived at the moment
of the request is ONGOING, and otherwise (UPCOMING or ENDED) fails with
a warning and sends no request; the `lecturer_dashboard.js` portal,
however, gates issuance only on the button's stored `data-status`
attribute and sends the request whenever that attribute equals
`"ONGOING"`, regardless of the time-derived status. -/
theorem c2_issuance_gating_amended :
    (∀ (now classStart : Int) (classEnd : Option Int),
      (LecturerMA.generateQRCode now classStart classEnd = .sendRequest ↔
        LecturerMA.getClassStatus now classStart classEnd = "ONGOING") ∧
      (LecturerMA.getClassStatus now classStart classEnd ≠ "ONGOING" →
        LecturerMA.generateQRCode now classStart classEnd =
          .warnNotOngoing (LecturerMA.getClassStatus now classStart classEnd))) ∧
    (∀ buttonDataStatus : String,
      LecturerDashboard.qrClickSendsRequest buttonDataStatus =
        (buttonDataStatus == "ONGOING")) := by
  refine ⟨fun now classStart classEnd => ⟨?_, ?_⟩, fun b => rfl⟩
  · simp only [LecturerMA.generateQRCode, LecturerMA.canGenerateQR]
    constructor
    · intro h
      by_cases hs : LecturerMA.getClassStatus now classStart classEnd = "ONGOING"
      · exact hs
      · simp only [hs] at h
        simp at h
        exact absurd h (by intro hcontra; exact hs (by simpa using hcontra))
    · intro h
      simp [h]
  · intro h
    simp only [LecturerMA.generateQRCode, LecturerMA.canGenerateQR]
    have : (LecturerMA.getClassStatus now classStart classEnd == "ONGOING") = false := by
      simpa using h
    simp [this]

/-- Witness for C2 amended: at `now = 5`, `start = 0`, `end = 10` the
re-derived status is ONGOING and the `lecturer_ma.js` portal sends the
issuance request. -/
theorem c2_issuance_gating_amended_witness :
    LecturerMA.generateQRCode 5 0 (some 10) = .sendRequest :=
  ((c2_issuance_gating_amended.1 5 0 (some 10)).1).mpr (by decide)

open StudentPortal in
/-- C3: At most one attendance submission per (class, student) from the
second student portal: once a class is in `attendedClasses` — because a
submission succeeded or it was shown PRESENT/ATTENDED at load — every
subsequent QR scan or manual token submission for it is rejected as
already recorded with no scan request sent; the set only grows under
every operation, a successful submission adds its class to the set, and
classes shown PRESENT/ATTENDED at load start in the set. -/
theorem c3_at_most_one_submission :
    (∀ (st : PortalState) (cid tok : String) (succ : Bool),
      st.selectedClassId = some cid →
      isClassAlreadyAttended st cid = true →
      handleScannedQRCode st tok succ = (st, .warnAlreadyAttended) ∧
      (tok ≠ "" → submitManualToken st tok succ = (st, .warnAlreadyAttended)) ∧
      (handleScannedQRCode st tok succ).2.requestSent = false ∧
      (submitManualToken st tok succ).2.requestSent = false) ∧
    (∀ (st : PortalState) (tok : String) (succ : Bool) (c : String),
      c ∈ st.attendedClasses →
      c ∈ (handleScannedQRCode st tok succ).1.attendedClasses ∧
      c ∈ (submitManualToken st tok succ).1.attendedClasses) ∧
    (∀ (st : PortalState) (items : List (String × String)) (c : String),
      c ∈ st.attendedClasses →
      c ∈ (initializeClassRestrictions st items).attendedClasses) ∧
    (∀ (st : PortalState) (cid tok : String),
      st.selectedClassId = some cid → tok ≠ "" →
      isClassAlreadyAttended st cid = false →
      cid ∈ (handleScannedQRCode st tok true).1.attendedClasses ∧
      (handleScannedQRCode st tok true).2 = .requestSucceeded) ∧
    (∀ (st : PortalState) (items : List (String × String)) (cid status : String),
      (cid, status) ∈ items →
      (toUpperStr status == "PRESENT" || toUpperStr status == "ATTENDED") = true →
      cid ∈ (initializeClassRestrictions st items).attendedClasses) := by
  refine ⟨?_, ?_, ?_, ?_, ?_⟩
  · intro st cid tok succ hsel hatt
    refine ⟨?_, ?_, ?_, ?_⟩
    · simp [handleScannedQRCode, hsel, hatt]
    · intro htok
      simp [submitManualToken, htok, hsel, hatt]
    · simp [handleScannedQRCode, hsel, hatt, ScanOutcome.requestSent]
    · by_cases htok : tok = ""
      · simp [submitManualToken, htok, ScanOutcome.requestSent]
      · simp [submitManualToken, htok, hsel, hatt, ScanOutcome.requestSent]
  · intro st tok succ c hc
    constructor
    · unfold handleScannedQRCode
      cases hst : st.selectedClassId with
      | none => simpa using hc
      | some cid =>
          dsimp only
          split_ifs with h
          · simpa using hc
          · exact mem_processQRScan_attended st tok cid succ c hc
    · unfold submitManualToken
      split_ifs with h
      · simpa using hc
      · cases hst : st.selectedClassId with
        | none => simpa using hc
        | some cid =>
            dsimp only
            split_ifs with h2
            · simpa using hc
            · exact mem_processQRScan_attended st tok cid succ c hc
  · intro st items c hc
    simp [initializeClassRestrictions, disableAttendedClasses_attended, hc]
  · intro st cid tok hsel htok hatt
    simp [handleScannedQRCode, hsel, hatt, processQRScan, htok,
      handleSuccessfulAttendance, disableAttendedClasses_attended]
  · intro st items cid status hmem hcond
    simp only [initializeClassRestrictions, disableAttendedClasses_attended,
      List.mem_append, List.mem_map]
    exact Or.inl ⟨(cid, status), List.mem_filter.mpr ⟨hmem, hcond⟩, rfl⟩

/-- Witness for C3: with class `CS101` already attended and selected, a
new scan with a valid-looking token is rejected with the warning and no
state change. -/
theorem c3_at_most_one_submission_witness :
    StudentPortal.handleScannedQRCode ⟨["CS101"], some "CS101"⟩ "token12345" true =
      (⟨["CS101"], some "CS101"⟩, .warnAlreadyAttended) :=
  (c3_at_most_one_submission.1 ⟨["CS101"], some "CS101"⟩ "CS101" "token12345" true
    rfl (by decide)).1

/-- C4: A scan submitted while the session's derived status is ENDED is
always rejected `SessionNotActive` by the spec-modelled server-side
Scan Validator — even when the submitted secret matches the active
token and the token is unexpired, and regardless of the duplicate flag;
the client path performs no status re-check of its own at submit time
(its embedding `processQRCodeData`/`buildAttendanceForm` takes no
status input at all), so the server check is what enforces this. -/
theorem c4_scan_during_ended_rejected (now : Int) (sess : ScanServer.ClassSession)
    (tok : ScanServer.AttendanceToken) (alreadyRecorded : Bool) (secret : String)
    (grace : Int)
    (hended : LecturerMA.getClassStatus now sess.classStart (some sess.classEnd) = "ENDED")
    (hsecret : tok.secret = secret) (hunexpired : now ≤ tok.expiresAt) :
    ScanServer.submitScan now (some sess) (some tok) alreadyRecorded secret grace =
      .sessionNotActive "ENDED" := by
  simp [ScanServer.submitScan, hended]

/-- Witness for C4: session 0–10, scan at `now = 20` with the matching,
unexpired secret is rejected `SessionNotActive ENDED`. -/
theorem c4_scan_during_ended_rejected_witness :
    ScanServer.submitScan 20 (some ⟨0, 10⟩) (some ⟨"secret-token-1", 100⟩) false
      "secret-token-1" 5 = .sessionNotActive "ENDED" :=
  c4_scan_during_ended_rejected 20 ⟨0, 10⟩ ⟨"secret-token-1", 100⟩ false
    "secret-token-1" 5 (by decide) rfl (by decide)

/-- C7: An absent device location never blocks a scan: with no location
available, `processQRCodeData` still submits the attendance request,
the submitted form carries no latitude / longitude / accuracy field,
and the second portal's scan request body likewise contains only the
token and class id. -/
theorem c7_absent_location_never_blocks (token classId : String) (csrf : Option String)
    (hvalid : Student.isValidQRData token = true) :
    Student.processQRCodeData token classId none csrf =
      .submitted (Student.buildAttendanceForm classId token csrf none) ∧
    "latitude" ∉ (Student.buildAttendanceForm classId token csrf none).map Prod.fst ∧
    "longitude" ∉ (Student.buildAttendanceForm classId token csrf none).map Prod.fst ∧
    "accuracy" ∉ (Student.buildAttendanceForm classId token csrf none).map Prod.fst ∧
    StudentPortal.buildScanRequestBody token classId none =
      [("token", token), ("class_id", classId)] := by
  refine ⟨?_, ?_, ?_, ?_, rfl⟩
  · simp [Student.processQRCodeData, hvalid]
  all_goals cases csrf <;> simp [Student.buildAttendanceForm]

/-- Witness for C7: a scan of token `token12345` for class `CS101` with
no location is still submitted. -/
theorem c7_absent_location_never_blocks_witness :
    Student.processQRCodeData "token12345" "CS101" none none =
      .submitted (Student.buildAttendanceForm "CS101" "token12345" none none) :=
  (c7_absent_location_never_blocks "token12345" "CS101" none (by decide)).1

/-- C9: A token string passes the student portal's well-formedness
check if and only if it is non-empty and at least 10 characters long;
any token passing that check is submitted by `processQRCodeData` (for
every location and CSRF configuration) and accepted for submission by
`handleManualTokenSubmit` — no other structure of the secret is
validated before the scan request is sent. -/
theorem c9_token_wellformedness :
    (∀ s : String, Student.isValidQRData s = true ↔ s ≠ "" ∧ 10 ≤ s.length) ∧
    (∀ (token classId : String) (loc : Option LocationData) (csrf : Option String),
      Student.isValidQRData token = true →
      Student.processQRCodeData token classId loc csrf =
        .submitted (Student.buildAttendanceForm classId token csrf loc)) ∧
    (∀ (cid token : String), token ≠ "" → Student.isValidQRData token = true →
      Student.handleManualTokenSubmit (some cid) token = .proceed) := by
  refine ⟨fun s => ?_, fun token classId loc csrf h => ?_, fun cid token hne hv => ?_⟩
  · have hne : s.isEmpty = false ↔ s ≠ "" := by
      rw [Bool.eq_false_iff]
      exact not_congr (String.isEmpty_iff s)
    simp [Student.isValidQRData, hne]
  · simp [Student.processQRCodeData, h]
  · simp [Student.handleManualTokenSubmit, hne, hv]

/-- Witness for C9: the 10-character token `abcdefghij` is well-formed
and proceeds to submission. -/
theorem c9_token_wellformedness_witness :
    Student.isValidQRData "abcdefghij" = true ∧
    Student.handleManualTokenSubmit (some "CS101") "abcdefghij" = .proceed :=
  ⟨(c9_token_wellformedness.1 "abcdefghij").mpr (by decide),
   c9_token_wellformedness.2.2 "CS101" "abcdefghij" (by decide) (by decide)⟩

/-- C10: Because the selected-class time-remaining display anchors the
class end time to the fixed date 2000-01-01 while comparing against the
current real time, for every end time of day and every current time
after 2000-01-01 the difference is non-positive and
`updateSelectedClassTimeRemaining` reports `Class ended`. -/
theorem c10_time_remaining_always_ended (endTimeMs nowMs : Int)
    (h0 : 0 ≤ endTimeMs) (h1 : endTimeMs < Student.msPerDay)
    (hnow : Student.epochMs20000101 + Student.msPerDay ≤ nowMs) :
    Student.updateSelectedClassTimeRemaining endTimeMs nowMs = "Class ended" := by
  simp only [Student.updateSelectedClassTimeRemaining, Student.epochMs20000101,
    Student.msPerDay] at *
  split_ifs with h
  · rfl
  · omega

/-- Witness for C10: an 11:00:00 end time (39600000 ms past midnight)
evaluated at a 2025 timestamp reports `Class ended`. -/
theorem c10_time_remaining_always_ended_witness :
    Student.updateSelectedClassTimeRemaining 39600000 1760000000000 = "Class ended" :=
  c10_time_remaining_always_ended 39600000 1760000000000 (by decide) (by decide)
    (by decide)
